import Mathlib

/-!
# Banking API: the balance operations of `controllers/userController.js`

A shallow embedding of the three request handlers `fundAccount`,
`transferFunds` and `withdrawFunds`, of the `users` collection and of the
`transactions` collection they read and write.

Modelling conventions.

* Amounts and balances are JavaScript numbers with an integer value, held as
  `Int`.  The handlers' `+` and `-` yield the IEEE 754 double nearest to the
  exact result (`toDouble`), which is the exact result up to `2 ^ 53` in
  absolute value and a rounded one beyond.  Fractions, the infinities reached
  from `2 ^ 1024` on and request amounts that are not JSON numbers are outside
  the model.  A balance field may be absent (`Option Int`), and the handlers
  read it through `balance || 0`.
* The `users` collection is the list of its documents in natural order;
  `findById` and `findOne` return the first match and `save` rewrites the
  `balance` field of the first document with the same `_id`.
* Every `await` of a handler is a store call that may reject.  The calls of one
  handler are numbered from `0` in source order and an outcome function
  `fail : Nat → Bool` says which of them reject; a rejection is caught by the
  handler's `catch` block, which answers `500`.
* The generated `_id` and the `createdAt` timestamp of a transaction record are
  not modelled.
-/

namespace BankingApi

/-! ## Data model -/

/-- Modelled from the spec: the `User` model (`models/user.js`), of which the
handlers use the identifier `_id`, the `email` that `findOne` searches and
the `balance`, which may be absent and is then read as zero. -/
structure User where
  _id : Nat
  email : String
  balance : Option Int
  deriving DecidableEq, Repr

/-- The `enum` of the `type` field of `transactionSchema`. -/
inductive TxType
  | fund
  | transfer
  | withdraw
  deriving DecidableEq, Repr

/-- The `enum` of the `status` field of `transactionSchema`. -/
inductive TxStatus
  | pending
  | completed
  | failed
  deriving DecidableEq, Repr

/-- A document of `transactionSchema` (`models/transaction.js`). -/
structure Transaction where
  type : TxType
  amount : Int
  sender : Nat
  receiver : Option Nat := none
  status : TxStatus := TxStatus.completed
  deriving DecidableEq, Repr

/-- The two collections of the database. -/
structure Ledger where
  users : List User
  transactions : List Transaction
  deriving DecidableEq, Repr

/-- The body handed to `res.send`. -/
inductive Body
  | error (msg : String)
  | account (user : User) (transaction : Transaction)
  | transferred (message : String) (sender receiver : User) (transaction : Transaction)
  deriving DecidableEq, Repr

/-- An HTTP response: `res.status(n).send(body)`; a bare `res.send` answers 200. -/
structure Response where
  status : Nat
  body : Body
  deriving DecidableEq, Repr

/-- Outcome of the store calls of one handler run: call `k` rejects when
`fail k` is `true`. -/
abbrev Faults := Nat → Bool

/-- A store on which every call succeeds. -/
def reliable : Faults := fun _ => false

/-! ## Numbers -/

/-- The number of low bits an integer of at least `2 ^ 53` loses when it is
cut to the 53 bits of a double significand: the halvings that bring `n`
below `2 ^ 53`. -/
def excessBits : Nat → Nat → Nat
  | 0, _ => 0
  | fuel + 1, n => if n < 9007199254740992 then 0 else excessBits fuel (n / 2) + 1

/-- The double nearest to a natural number, ties going to the even
significand. Every number up to `2 ^ 53` is a double. -/
def roundNat (n : Nat) : Nat :=
  if n ≤ 9007199254740992 then n
  else
    let e := excessBits (n / 9007199254740992 + 1) n
    let q := n / 2 ^ e
    let r := n % 2 ^ e
    let half := 2 ^ (e - 1)
    if r < half then q * 2 ^ e
    else if half < r then (q + 1) * 2 ^ e
    else if q % 2 = 0 then q * 2 ^ e
    else (q + 1) * 2 ^ e

/-- The double nearest to an integer, ties going to the even significand: the
value of a JavaScript `+` or `-` whose exact result is that integer.  The
exponent range is taken as unbounded, so the value agrees with JavaScript for
results below `2 ^ 1024` in absolute value. -/
def toDouble : Int → Int
  | Int.ofNat m => Int.ofNat (roundNat m)
  | Int.negSucc m => - Int.ofNat (roundNat (m + 1))

/-- The integers on which JavaScript arithmetic is exact: at most `2 ^ 53` in
absolute value. -/
def Exact (n : Int) : Prop :=
  -9007199254740992 ≤ n ∧ n ≤ 9007199254740992

instance (n : Int) : Decidable (Exact n) := by
  unfold Exact; infer_instance

/-! ## Store operations -/

/-- The JavaScript expression `b || 0` on a balance: an absent balance and a
zero balance both read as `0`. -/
def orZero (b : Option Int) : Int :=
  match b with
  | none => 0
  | some v => if v = 0 then 0 else v

/-- The query `User.findById(id)`. -/
def findById (users : List User) (id : Nat) : Option User :=
  users.find? (fun u => u._id == id)

/-- The query `User.findOne({ email })`. -/
def findOne (users : List User) (email : String) : Option User :=
  users.find? (fun u => u.email == email)

/-- The call `doc.save()` on a loaded user whose `balance` was assigned: the
stored document with the same `_id` gets the new `balance`. -/
def save : List User → User → List User
  | [], _ => []
  | u :: rest, doc =>
    if u._id = doc._id then { u with balance := doc.balance } :: rest
    else u :: save rest doc

/-- The stored balance of account `id`, read as the handlers read it. -/
def Ledger.balance (s : Ledger) (id : Nat) : Int :=
  match findById s.users id with
  | some u => orZero u.balance
  | none => 0

/-- The sum of all account balances. -/
def Ledger.total (s : Ledger) : Int :=
  (s.users.map (fun u => orZero u.balance)).sum

/-- Identifiers are unique in the `users` collection. -/
def Ledger.WF (s : Ledger) : Prop :=
  (s.users.map (fun u => u._id)).Nodup

instance (s : Ledger) : Decidable s.WF := by
  unfold Ledger.WF; infer_instance

/-! ## The handlers -/

/-- The handler `exports.fundAccount`. Store calls: `0` `findById`,
`1` `user.save`, `2` `transaction.save`. -/
def fundAccount (fail : Faults) (s : Ledger) (actor : Nat) (amount : Int) :
    Response × Ledger :=
  if amount ≤ 0 then (⟨400, Body.error "Amount must be positive."⟩, s)
  else if fail 0 then (⟨500, Body.error "Funding failed."⟩, s)
  else
    match findById s.users actor with
    | none => (⟨404, Body.error "User not found."⟩, s)
    | some found =>
      let user : User := { found with balance := some (toDouble (orZero found.balance + amount)) }
      if fail 1 then (⟨500, Body.error "Funding failed."⟩, s)
      else
        let s1 : Ledger := { s with users := save s.users user }
        let transaction : Transaction :=
          { type := TxType.fund, amount := amount, sender := user._id }
        if fail 2 then (⟨500, Body.error "Funding failed."⟩, s1)
        else
          (⟨200, Body.account user transaction⟩,
            { s1 with transactions := s1.transactions ++ [transaction] })

/-- The handler `exports.transferFunds`. Store calls: `0` `findById`,
`1` `findOne`, `2` `sender.save`, `3` `receiver.save`, `4` `transaction.save`. -/
def transferFunds (fail : Faults) (s : Ledger) (actor : Nat) (recipientEmail : String)
    (amount : Int) : Response × Ledger :=
  if amount ≤ 0 then (⟨400, Body.error "Amount must be positive."⟩, s)
  else if fail 0 then (⟨500, Body.error "Transfer failed."⟩, s)
  else if fail 1 then (⟨500, Body.error "Transfer failed."⟩, s)
  else
    match findById s.users actor with
    | none => (⟨404, Body.error "Sender not found."⟩, s)
    | some sender0 =>
      match findOne s.users recipientEmail with
      | none => (⟨404, Body.error "Recipient not found."⟩, s)
      | some receiver0 =>
        let senderBalance := orZero sender0.balance
        let receiverBalance := orZero receiver0.balance
        if senderBalance < amount then (⟨400, Body.error "Insufficient balance."⟩, s)
        else
          let sender : User := { sender0 with balance := some (toDouble (senderBalance - amount)) }
          let receiver : User := { receiver0 with balance := some (toDouble (receiverBalance + amount)) }
          if fail 2 then (⟨500, Body.error "Transfer failed."⟩, s)
          else
            let s1 : Ledger := { s with users := save s.users sender }
            if fail 3 then (⟨500, Body.error "Transfer failed."⟩, s1)
            else
              let s2 : Ledger := { s1 with users := save s1.users receiver }
              let transaction : Transaction :=
                { type := TxType.transfer, amount := amount, sender := sender._id,
                  receiver := some receiver._id }
              if fail 4 then (⟨500, Body.error "Transfer failed."⟩, s2)
              else
                (⟨200, Body.transferred "Transfer successful." sender receiver transaction⟩,
                  { s2 with transactions := s2.transactions ++ [transaction] })

/-- The handler `exports.withdrawFunds`. Store calls: `0` `findById`,
`1` `user.save`, `2` `transaction.save`. -/
def withdrawFunds (fail : Faults) (s : Ledger) (actor : Nat) (amount : Int) :
    Response × Ledger :=
  if amount ≤ 0 then (⟨400, Body.error "Amount must be positive."⟩, s)
  else if fail 0 then (⟨500, Body.error "Withdrawal failed."⟩, s)
  else
    match findById s.users actor with
    | none => (⟨404, Body.error "User not found."⟩, s)
    | some found =>
      let userBalance := orZero found.balance
      if userBalance < amount then (⟨400, Body.error "Insufficient balance."⟩, s)
      else
        let user : User := { found with balance := some (toDouble (userBalance - amount)) }
        if fail 1 then (⟨500, Body.error "Withdrawal failed."⟩, s)
        else
          let s1 : Ledger := { s with users := save s.users user }
          let transaction : Transaction :=
            { type := TxType.withdraw, amount := amount, sender := user._id }
          if fail 2 then (⟨500, Body.error "Withdrawal failed."⟩, s1)
          else
            (⟨200, Body.account user transaction⟩,
              { s1 with transactions := s1.transactions ++ [transaction] })

/-! ## Sequences of requests -/

/-- A request to one of the three account routes of `routes/user.js`, with the
outcome of the store calls its handler will make. -/
inductive Request
  | fund (fail : Faults) (actor : Nat) (amount : Int)
  | transfer (fail : Faults) (actor : Nat) (recipientEmail : String) (amount : Int)
  | withdraw (fail : Faults) (actor : Nat) (amount : Int)

/-- The `type` a handler gives the record it creates. -/
def Request.kind : Request → TxType
  | Request.fund _ _ _ => TxType.fund
  | Request.transfer _ _ _ _ => TxType.transfer
  | Request.withdraw _ _ _ => TxType.withdraw

/-- The `amount` of the request body. -/
def Request.amount : Request → Int
  | Request.fund _ _ amount => amount
  | Request.transfer _ _ _ amount => amount
  | Request.withdraw _ _ amount => amount

/-- The router: dispatch of a request to its handler. -/
def handle (s : Ledger) : Request → Response × Ledger
  | Request.fund fail actor amount => fundAccount fail s actor amount
  | Request.transfer fail actor recipientEmail amount =>
    transferFunds fail s actor recipientEmail amount
  | Request.withdraw fail actor amount => withdrawFunds fail s actor amount

/-- The ledger after serving the requests one after another. -/
def run (s : Ledger) : List Request → Ledger
  | [] => s
  | q :: qs => run (handle s q).2 qs

/-- The responses to requests served one after another. -/
def responses (s : Ledger) : List Request → List Response
  | [] => []
  | q :: qs => (handle s q).1 :: responses (handle s q).2 qs

/-- Every stored balance reads as a non-negative number. -/
def Ledger.NonNeg (s : Ledger) : Prop :=
  ∀ u ∈ s.users, 0 ≤ orZero u.balance

/-- Store call `k` is the first one to reject. -/
def FirstFailure (fail : Faults) (k : Nat) : Prop :=
  (∀ i < k, fail i = false) ∧ fail k = true

instance (fail : Faults) (k : Nat) : Decidable (FirstFailure fail k) := by
  unfold FirstFailure; infer_instance

/-- The outcome in which store call `k` rejects and every other call succeeds. -/
def failAt (k : Nat) : Faults := fun i => i == k

/-! ## Interleaved `withdrawFunds` calls

Between two `await`s a handler runs without interruption; at an `await` other
handlers may run.  A `withdrawFunds` call therefore touches the store in three
separate events: the `findById` read, the `user.save` write of the balance
computed from the document read earlier, and the `transaction.save` append. -/

/-- Progress of one `withdrawFunds` call on a reliable store. -/
inductive Call
  | start
  | loaded (found : User)
  | saved (user : User)
  | done (res : Response)
  deriving DecidableEq, Repr

/-- One store event of a `withdrawFunds` call, with the handler code that
follows it up to the next `await`. -/
def Call.step (actor : Nat) (amount : Int) (s : Ledger) : Call → Call × Ledger
  | Call.start =>
    if amount ≤ 0 then (Call.done ⟨400, Body.error "Amount must be positive."⟩, s)
    else
      match findById s.users actor with
      | none => (Call.done ⟨404, Body.error "User not found."⟩, s)
      | some found => (Call.loaded found, s)
  | Call.loaded found =>
    let userBalance := orZero found.balance
    if userBalance < amount then (Call.done ⟨400, Body.error "Insufficient balance."⟩, s)
    else
      let user : User := { found with balance := some (toDouble (userBalance - amount)) }
      (Call.saved user, { s with users := save s.users user })
  | Call.saved user =>
    let transaction : Transaction :=
      { type := TxType.withdraw, amount := amount, sender := user._id }
    (Call.done ⟨200, Body.account user transaction⟩,
      { s with transactions := s.transactions ++ [transaction] })
  | Call.done res => (Call.done res, s)

/-- The scheduler lets call number `i` perform its next event. -/
def stepAt (actor : Nat) (amount : Int) (i : Nat) (c : Ledger × List Call) :
    Ledger × List Call :=
  match c.2.get? i with
  | none => c
  | some call => ((Call.step actor amount c.1 call).2, c.2.set i (Call.step actor amount c.1 call).1)

/-- Execution of a schedule: the list of the calls that move, in order. -/
def interleave (actor : Nat) (amount : Int) (schedule : List Nat) (c : Ledger × List Call) :
    Ledger × List Call :=
  schedule.foldl (fun c i => stepAt actor amount i c) c

/-- A call has answered with status `200`. -/
def Call.succeeded : Call → Bool
  | Call.done res => res.status == 200
  | _ => false

/-- A call has answered `400 Insufficient balance.`. -/
def Call.insufficient : Call → Bool
  | Call.done res => res == ⟨400, Body.error "Insufficient balance."⟩
  | _ => false

/-! ## Number lemmas -/

theorem toDouble_exact (n : Int) (h : Exact n) : toDouble n = n := by
  obtain ⟨h1, h2⟩ := h
  cases n with
  | ofNat m =>
    rw [Int.ofNat_eq_coe] at h1 h2
    have hm : m ≤ 9007199254740992 := by omega
    simp [toDouble, roundNat, hm]
  | negSucc m =>
    rw [Int.negSucc_eq] at h1 h2
    have hm : m + 1 ≤ 9007199254740992 := by omega
    simp only [toDouble, roundNat, hm, if_true]
    rfl

theorem toDouble_nonneg (n : Int) (h : 0 ≤ n) : 0 ≤ toDouble n := by
  cases n with
  | ofNat m => exact Int.ofNat_nonneg _
  | negSucc m =>
    rw [Int.negSucc_eq] at h
    omega

theorem toDouble_rounds_to_even :
    toDouble 9007199254740993 = 9007199254740992 ∧
    toDouble 9007199254740994 = 9007199254740994 ∧
    toDouble 9007199254740995 = 9007199254740996 ∧
    toDouble 18014398509481983 = 18014398509481984 ∧
    toDouble 18014398509481986 = 18014398509481984 ∧
    toDouble (-9007199254740993) = -9007199254740992 := by
  decide

/-! ## Store lemmas -/

theorem orZero_some (v : Int) : orZero (some v) = v := by
  simp only [orZero]
  split_ifs with h
  · exact h.symm
  · rfl

theorem save_cons_eq (u doc : User) (rest : List User) (h : u._id = doc._id) :
    save (u :: rest) doc = { u with balance := doc.balance } :: rest := by
  simp [save, h]

theorem save_cons_ne (u doc : User) (rest : List User) (h : ¬ u._id = doc._id) :
    save (u :: rest) doc = u :: save rest doc := by
  simp [save, h]

theorem findById_cons_eq (u : User) (rest : List User) (id : Nat) (h : u._id = id) :
    findById (u :: rest) id = some u := by
  simp [findById, List.find?_cons, h]

theorem findById_cons_ne (u : User) (rest : List User) (id : Nat) (h : ¬ u._id = id) :
    findById (u :: rest) id = findById rest id := by
  simp [findById, List.find?_cons, h]

theorem findById_id {users : List User} {id : Nat} {u : User}
    (h : findById users id = some u) : u._id = id := by
  have := List.find?_some h
  simpa using this

theorem findById_mem {users : List User} {id : Nat} {u : User}
    (h : findById users id = some u) : u ∈ users :=
  List.mem_of_find?_eq_some h

theorem findOne_mem {users : List User} {email : String} {u : User}
    (h : findOne users email = some u) : u ∈ users :=
  List.mem_of_find?_eq_some h

theorem findById_save_other (users : List User) (doc : User) (id : Nat)
    (h : id ≠ doc._id) : findById (save users doc) id = findById users id := by
  induction users with
  | nil => rfl
  | cons u rest ih =>
    by_cases hu : u._id = doc._id
    · have hne : ¬ u._id = id := fun e => h (e ▸ hu)
      rw [save_cons_eq u doc rest hu, findById_cons_ne u rest id hne]
      exact findById_cons_ne _ rest id hne
    · rw [save_cons_ne u doc rest hu]
      by_cases hid : u._id = id
      · rw [findById_cons_eq _ _ _ hid, findById_cons_eq _ _ _ hid]
      · rw [findById_cons_ne _ _ _ hid, findById_cons_ne _ _ _ hid, ih]

theorem findById_save_same (users : List User) (doc u : User)
    (h : findById users doc._id = some u) :
    findById (save users doc) doc._id = some { u with balance := doc.balance } := by
  induction users with
  | nil => simp [findById] at h
  | cons v rest ih =>
    by_cases hv : v._id = doc._id
    · rw [findById_cons_eq _ _ _ hv] at h
      rw [save_cons_eq v doc rest hv, ← Option.some.inj h]
      exact findById_cons_eq _ rest doc._id hv
    · rw [findById_cons_ne _ _ _ hv] at h
      rw [save_cons_ne v doc rest hv, findById_cons_ne _ _ _ hv]
      exact ih h

theorem balance_of_find {s : Ledger} {id : Nat} {u : User}
    (h : findById s.users id = some u) : s.balance id = orZero u.balance := by
  unfold Ledger.balance
  rw [h]

theorem balance_save_same (users : List User) (doc u : User) (b : Int)
    (h : findById users doc._id = some u) (hb : doc.balance = some b)
    (log : List Transaction) :
    Ledger.balance ⟨save users doc, log⟩ doc._id = b := by
  unfold Ledger.balance
  simp only [findById_save_same users doc u h, hb, orZero_some]

theorem findById_of_mem {users : List User} {u : User}
    (hnd : (users.map (fun v => v._id)).Nodup) (hm : u ∈ users) :
    findById users u._id = some u := by
  induction users with
  | nil => cases hm
  | cons v rest ih =>
    rw [List.map_cons, List.nodup_cons] at hnd
    rcases List.mem_cons.mp hm with rfl | hrest
    · exact findById_cons_eq _ _ _ rfl
    · have hne : ¬ v._id = u._id := by
        intro e
        exact hnd.1 (e ▸ List.mem_map_of_mem (fun v => v._id) hrest)
      rw [findById_cons_ne _ _ _ hne]
      exact ih hnd.2 hrest

theorem nonneg_save (users : List User) (doc : User)
    (h : ∀ u ∈ users, 0 ≤ orZero u.balance) (hd : 0 ≤ orZero doc.balance) :
    ∀ u ∈ save users doc, 0 ≤ orZero u.balance := by
  induction users with
  | nil => intro u hu; cases hu
  | cons v rest ih =>
    have hrest : ∀ u ∈ rest, 0 ≤ orZero u.balance :=
      fun u hu => h u (List.mem_cons_of_mem v hu)
    by_cases hv : v._id = doc._id
    · rw [save_cons_eq v doc rest hv]
      intro u hu
      rcases List.mem_cons.mp hu with rfl | hu
      · exact hd
      · exact hrest u hu
    · rw [save_cons_ne v doc rest hv]
      intro u hu
      rcases List.mem_cons.mp hu with rfl | hu
      · exact h u (List.mem_cons_self u rest)
      · exact ih hrest u hu

theorem fundAccount_nonNeg (fail : Faults) (s : Ledger) (actor : Nat) (amount : Int)
    (h : s.NonNeg) : (fundAccount fail s actor amount).2.NonNeg := by
  simp only [fundAccount]
  repeat' split
  all_goals first
    | exact h
    | (
       have hfound := h _ (findById_mem ‹findById s.users actor = some _›)
       exact nonneg_save s.users _ h
        (by rw [orZero_some]; exact toDouble_nonneg _ (by omega)))

theorem withdrawFunds_nonNeg (fail : Faults) (s : Ledger) (actor : Nat) (amount : Int)
    (h : s.NonNeg) : (withdrawFunds fail s actor amount).2.NonNeg := by
  simp only [withdrawFunds]
  repeat' split
  all_goals first
    | exact h
    | exact nonneg_save s.users _ h
        (by rw [orZero_some]; exact toDouble_nonneg _ (by omega))

theorem transferFunds_nonNeg (fail : Faults) (s : Ledger) (actor : Nat)
    (recipientEmail : String) (amount : Int)
    (h : s.NonNeg) : (transferFunds fail s actor recipientEmail amount).2.NonNeg := by
  simp only [transferFunds]
  repeat' split
  all_goals first
    | exact h
    | exact nonneg_save s.users _ h
        (by rw [orZero_some]; exact toDouble_nonneg _ (by omega))
    | (
       have hfound := h _ (findOne_mem ‹findOne s.users recipientEmail = some _›)
       exact nonneg_save _ _
        (nonneg_save s.users _ h (by rw [orZero_some]; exact toDouble_nonneg _ (by omega)))
        (by rw [orZero_some]; exact toDouble_nonneg _ (by omega)))

theorem handle_nonNeg (s : Ledger) (q : Request) (h : s.NonNeg) : (handle s q).2.NonNeg := by
  cases q with
  | fund fail actor amount => exact fundAccount_nonNeg fail s actor amount h
  | transfer fail actor recipientEmail amount =>
    exact transferFunds_nonNeg fail s actor recipientEmail amount h
  | withdraw fail actor amount => exact withdrawFunds_nonNeg fail s actor amount h

theorem fundAccount_log (fail : Faults) (s : Ledger) (actor : Nat) (amount : Int) :
    (fundAccount fail s actor amount).2.transactions = s.transactions ∨
    ∃ t : Transaction, (fundAccount fail s actor amount).2.transactions = s.transactions ++ [t] ∧
      t.type = TxType.fund ∧ t.amount = amount ∧ 0 < amount := by
  simp only [fundAccount]
  repeat' split
  all_goals first
    | exact Or.inl rfl
    | exact Or.inr ⟨_, rfl, rfl, rfl, by omega⟩

theorem withdrawFunds_log (fail : Faults) (s : Ledger) (actor : Nat) (amount : Int) :
    (withdrawFunds fail s actor amount).2.transactions = s.transactions ∨
    ∃ t : Transaction,
      (withdrawFunds fail s actor amount).2.transactions = s.transactions ++ [t] ∧
      t.type = TxType.withdraw ∧ t.amount = amount ∧ 0 < amount := by
  simp only [withdrawFunds]
  repeat' split
  all_goals first
    | exact Or.inl rfl
    | exact Or.inr ⟨_, rfl, rfl, rfl, by omega⟩

theorem transferFunds_log (fail : Faults) (s : Ledger) (actor : Nat)
    (recipientEmail : String) (amount : Int) :
    (transferFunds fail s actor recipientEmail amount).2.transactions = s.transactions ∨
    ∃ t : Transaction,
      (transferFunds fail s actor recipientEmail amount).2.transactions
        = s.transactions ++ [t] ∧
      t.type = TxType.transfer ∧ t.amount = amount ∧ 0 < amount := by
  simp only [transferFunds]
  repeat' split
  all_goals first
    | exact Or.inl rfl
    | exact Or.inr ⟨_, rfl, rfl, rfl, by omega⟩

theorem handle_log (s : Ledger) (q : Request) :
    (handle s q).2.transactions = s.transactions ∨
    ∃ t : Transaction, (handle s q).2.transactions = s.transactions ++ [t] ∧
      t.type = q.kind ∧ t.amount = q.amount ∧ 0 < q.amount := by
  cases q with
  | fund fail actor amount => exact fundAccount_log fail s actor amount
  | transfer fail actor recipientEmail amount =>
    exact transferFunds_log fail s actor recipientEmail amount
  | withdraw fail actor amount => exact withdrawFunds_log fail s actor amount

theorem handle_log_pos (s : Ledger) (q : Request)
    (h : ∀ t ∈ s.transactions, 0 < t.amount) :
    ∀ t ∈ (handle s q).2.transactions, 0 < t.amount := by
  rcases handle_log s q with e | ⟨t, e, -, ht, hq⟩
  · rw [e]; exact h
  · rw [e]
    intro x hx
    rcases List.mem_append.mp hx with hx | hx
    · exact h x hx
    · rw [List.mem_singleton.mp hx, ht]; exact hq

theorem balance_save_other (users : List User) (doc : User) (id : Nat) (h : id ≠ doc._id)
    (log log1 : List Transaction) :
    Ledger.balance ⟨save users doc, log⟩ id = Ledger.balance ⟨users, log1⟩ id := by
  unfold Ledger.balance
  simp only [findById_save_other users doc id h]

theorem firstFailure_before {fail : Faults} {k i : Nat} (h : FirstFailure fail k)
    (hi : i < k) : fail i = false :=
  h.1 i hi

theorem withdrawFunds_served (s : Ledger) (actor : Nat) (amount : Int) (u : User)
    (hu : findById s.users actor = some u) (hpos : 0 < amount)
    (hle : amount ≤ orZero u.balance) :
    (withdrawFunds reliable s actor amount).1.status = 200 ∧
    findById (withdrawFunds reliable s actor amount).2.users actor
      = some { u with balance := some (toDouble (orZero u.balance - amount)) } := by
  have hid := findById_id hu
  have hnot : ¬ amount ≤ 0 := not_le.mpr hpos
  have hlt : ¬ orZero u.balance < amount := not_lt.mpr hle
  simp only [withdrawFunds, reliable, hnot, hu, hlt, if_false, Bool.false_eq_true]
  refine ⟨trivial, ?_⟩
  have h := findById_save_same s.users
    { u with balance := some (toDouble (orZero u.balance - amount)) } u
    (by simpa [hid] using hu)
  simpa [hid] using h

theorem withdrawFunds_refused (s : Ledger) (actor : Nat) (amount : Int) (u : User)
    (hu : findById s.users actor = some u) (hpos : 0 < amount)
    (hlt : orZero u.balance < amount) :
    withdrawFunds reliable s actor amount = (⟨400, Body.error "Insufficient balance."⟩, s) := by
  have hnot : ¬ amount ≤ 0 := not_le.mpr hpos
  simp [withdrawFunds, reliable, hnot, hu, hlt]

theorem serial_withdrawals (actor : Nat) (amount : Int) (hpos : 0 < amount) (N : Nat) :
    ∀ (s : Ledger) (u : User), findById s.users actor = some u → 0 ≤ orZero u.balance →
      orZero u.balance ≤ 9007199254740992 →
      (responses s (List.replicate N (Request.withdraw reliable actor amount))).countP
          (fun r => r.status == 200) = min N (orZero u.balance / amount).toNat ∧
      (∀ r ∈ responses s (List.replicate N (Request.withdraw reliable actor amount)),
        r.status = 200 ∨ r = ⟨400, Body.error "Insufficient balance."⟩) ∧
      (run s (List.replicate N (Request.withdraw reliable actor amount))).balance actor
        = orZero u.balance - amount * (min N (orZero u.balance / amount).toNat : Nat) ∧
      0 ≤ (run s (List.replicate N (Request.withdraw reliable actor amount))).balance actor := by
  induction N with
  | zero =>
    intro s u hu hB _
    simp [responses, run, balance_of_find hu, hB]
  | succ N ih =>
    intro s u hu hB hmax
    rw [List.replicate_succ]
    simp only [responses, run, handle]
    by_cases hlt : orZero u.balance < amount
    · rw [withdrawFunds_refused s actor amount u hu hpos hlt]
      obtain ⟨h1, h2, h3, h4⟩ := ih s u hu hB hmax
      have hq : orZero u.balance / amount = 0 := Int.ediv_eq_zero_of_lt hB hlt
      rw [hq] at h1 h3 ⊢
      refine ⟨?_, ?_, ?_, h4⟩
      · rw [List.countP_cons_of_neg]
        · simpa using h1
        · simp
      · intro r hr
        rcases List.mem_cons.mp hr with rfl | hr
        · exact Or.inr rfl
        · exact h2 r hr
      · simpa using h3
    · have hle : amount ≤ orZero u.balance := not_lt.mp hlt
      obtain ⟨hs, hf⟩ := withdrawFunds_served s actor amount u hu hpos hle
      have hex : toDouble (orZero u.balance - amount) = orZero u.balance - amount :=
        toDouble_exact _ ⟨by omega, by omega⟩
      rw [hex] at hf
      have hB1 : (0 : Int) ≤ orZero (some (orZero u.balance - amount)) := by
        rw [orZero_some]; omega
      have hB2 : orZero (some (orZero u.balance - amount)) ≤ 9007199254740992 := by
        rw [orZero_some]; omega
      obtain ⟨h1, h2, h3, h4⟩ := ih _ _ hf hB1 hB2
      rw [orZero_some] at h1 h3
      have hq : (orZero u.balance - amount) / amount = orZero u.balance / amount - 1 := by
        have := Int.add_mul_ediv_right (orZero u.balance) (-1) (ne_of_gt hpos)
        simpa [sub_eq_add_neg] using this
      have hq1 : 1 ≤ orZero u.balance / amount := by
        rw [Int.le_ediv_iff_mul_le hpos]; omega
      rw [hq] at h1 h3
      have hk : min (N + 1) (orZero u.balance / amount).toNat
          = min N (orZero u.balance / amount - 1).toNat + 1 := by omega
      refine ⟨?_, ?_, ?_, h4⟩
      · rw [List.countP_cons_of_pos]
        · rw [h1, hk]
        · simp [hs]
      · intro r hr
        rcases List.mem_cons.mp hr with rfl | hr
        · exact Or.inl hs
        · exact h2 r hr
      · rw [h3, hk]
        push_cast
        ring

theorem call_steps_eq_withdrawFunds (s : Ledger) (actor : Nat) (amount : Int) :
    interleave actor amount [0, 0, 0] (s, [Call.start]) =
      ((withdrawFunds reliable s actor amount).2,
        [Call.done (withdrawFunds reliable s actor amount).1]) := by
  simp only [interleave, List.foldl, stepAt, withdrawFunds, reliable]
  by_cases h1 : amount ≤ 0
  · simp [Call.step, h1]
  · cases hf : findById s.users actor with
    | none => simp [Call.step, h1, hf]
    | some found =>
      by_cases h2 : orZero found.balance < amount
      · simp [Call.step, h1, hf, h2]
      · simp [Call.step, h1, hf, h2]

theorem save_ids (users : List User) (doc : User) :
    (save users doc).map (fun v => v._id) = users.map (fun v => v._id) := by
  induction users with
  | nil => rfl
  | cons v rest ih =>
    by_cases hv : v._id = doc._id
    · rw [save_cons_eq v doc rest hv]; rfl
    · rw [save_cons_ne v doc rest hv, List.map_cons, List.map_cons, ih]

theorem handle_WF (s : Ledger) (q : Request) (h : s.WF) : (handle s q).2.WF := by
  unfold Ledger.WF at h ⊢
  cases q with
  | fund fail actor amount =>
    simp only [handle, fundAccount]
    repeat' split
    all_goals first
      | exact h
      | (simp only [save_ids]; exact h)
  | transfer fail actor recipientEmail amount =>
    simp only [handle, transferFunds]
    repeat' split
    all_goals first
      | exact h
      | (simp only [save_ids]; exact h)
  | withdraw fail actor amount =>
    simp only [handle, withdrawFunds]
    repeat' split
    all_goals first
      | exact h
      | (simp only [save_ids]; exact h)

theorem save_actor_balance (users : List User) (actor : Nat) (a : User) (x : Int)
    (log : List Transaction) (ha : findById users actor = some a) :
    Ledger.balance ⟨save users { a with balance := some x }, log⟩ actor = x := by
  have hid := findById_id ha
  have e := balance_save_same users { a with balance := some x } a x
    (by simpa [hid] using ha) rfl log
  simpa [hid] using e

theorem save_actor_others (users : List User) (actor : Nat) (a : User) (x : Int)
    (ha : findById users actor = some a) (id : Nat) (hne : id ≠ actor) :
    findById (save users { a with balance := some x }) id = findById users id := by
  have hid : a._id = actor := findById_id ha
  exact findById_save_other users { a with balance := some x } id
    (fun e => hne (e.trans hid))

theorem exists_findById_of_mem {users : List User} {u : User} (hm : u ∈ users) :
    ∃ v, findById users u._id = some v := by
  induction users with
  | nil => cases hm
  | cons w rest ih =>
    by_cases hw : w._id = u._id
    · exact ⟨w, findById_cons_eq _ _ _ hw⟩
    · rcases List.mem_cons.mp hm with rfl | hrest
      · exact absurd rfl hw
      · obtain ⟨v, hv⟩ := ih hrest
        exact ⟨v, by rw [findById_cons_ne _ _ _ hw]; exact hv⟩

theorem exists_findById_save (users : List User) (doc : User) (id : Nat)
    (h : ∃ v, findById users id = some v) : ∃ v, findById (save users doc) id = some v := by
  obtain ⟨v, hv⟩ := h
  by_cases hid : id = doc._id
  · subst hid
    exact ⟨_, findById_save_same users doc v hv⟩
  · exact ⟨v, by rw [findById_save_other users doc id hid]; exact hv⟩

/-! ## The three operations on a reliable store -/

/-- C1 fails beyond the exact range of JavaScript numbers: account 1 holds
9007199254740992, which is 2 ^ 53, and is funded with 1.  The handler answers
200 and appends the `fund` record, but the sum it saves is the nearest double,
so the balance stays 9007199254740992 instead of growing by 1. -/
theorem fundAccount_rounds_sum :
    (fundAccount reliable ⟨[⟨1, "a@x", some 9007199254740992⟩], []⟩ 1 1).1.status = 200 ∧
    (fundAccount reliable ⟨[⟨1, "a@x", some 9007199254740992⟩], []⟩ 1 1).2.transactions
      = [{ type := TxType.fund, amount := 1, sender := 1 }] ∧
    Ledger.balance ⟨[⟨1, "a@x", some 9007199254740992⟩], []⟩ 1 = 9007199254740992 ∧
    (fundAccount reliable ⟨[⟨1, "a@x", some 9007199254740992⟩], []⟩ 1 1).2.balance 1
      = 9007199254740992 ∧
    (fundAccount reliable ⟨[⟨1, "a@x", some 9007199254740992⟩], []⟩ 1 1).2.balance 1
      ≠ Ledger.balance ⟨[⟨1, "a@x", some 9007199254740992⟩], []⟩ 1 + 1 := by
  decide

/-- C1 as amended: for every ledger, every actor that resolves to a stored
account and every amount greater than zero, `fundAccount` answers 200, the
actor's balance becomes the double nearest to its previous balance (zero when
absent) plus the amount, which is that sum itself whenever the sum is at most
2 ^ 53 in absolute value, every other account is left as it was, and exactly
one record of type `fund` with that amount and the actor as sender is appended
to the transactions. -/
theorem fundAccount_funds (s : Ledger) (actor : Nat) (amount : Int) (u : User)
    (hu : findById s.users actor = some u) (hpos : 0 < amount) :
    (fundAccount reliable s actor amount).1.status = 200 ∧
    (fundAccount reliable s actor amount).2.balance actor
      = toDouble (s.balance actor + amount) ∧
    (Exact (s.balance actor + amount) →
      (fundAccount reliable s actor amount).2.balance actor = s.balance actor + amount) ∧
    (∀ id, id ≠ actor →
      findById (fundAccount reliable s actor amount).2.users id = findById s.users id) ∧
    (fundAccount reliable s actor amount).2.transactions =
      s.transactions ++ [{ type := TxType.fund, amount := amount, sender := actor }] := by
  have hid := findById_id hu
  have hnot : ¬ amount ≤ 0 := not_le.mpr hpos
  rw [balance_of_find hu]
  simp only [fundAccount, reliable, hnot, hu, if_false, Bool.false_eq_true]
  have hbal := save_actor_balance s.users actor u (toDouble (orZero u.balance + amount))
    (s.transactions ++ [{ type := TxType.fund, amount := amount, sender := u._id }]) hu
  refine ⟨trivial, hbal, ?_, ?_, ?_⟩
  · intro hex
    exact hbal.trans (toDouble_exact _ hex)
  · intro id hne
    exact save_actor_others s.users actor u _ hu id hne
  · simp [hid]

/-- C1 as amended, at a concrete ledger: funding account 1 (balance 100)
with 50. -/
theorem fundAccount_funds_witness :
    findById [(⟨1, "a@x", some 100⟩ : User), ⟨2, "b@x", none⟩] 1 = some ⟨1, "a@x", some 100⟩ ∧
    (fundAccount reliable ⟨[⟨1, "a@x", some 100⟩, ⟨2, "b@x", none⟩], []⟩ 1 50).2.balance 1
      = Ledger.balance ⟨[⟨1, "a@x", some 100⟩, ⟨2, "b@x", none⟩], []⟩ 1 + 50 :=
  ⟨by decide,
    (fundAccount_funds ⟨[⟨1, "a@x", some 100⟩, ⟨2, "b@x", none⟩], []⟩ 1 50
      ⟨1, "a@x", some 100⟩ (by decide) (by decide)).2.2.1 (by decide)⟩

/-- C2 fails beyond the exact range of JavaScript numbers: account 1 holds
9007199254740994, which is 2 ^ 53 + 2, and withdraws 1.  The handler answers
200 and appends the `withdraw` record, but the difference it saves is the
nearest double, 9007199254740992, not 9007199254740993. -/
theorem withdrawFunds_rounds_difference :
    (withdrawFunds reliable ⟨[⟨1, "a@x", some 9007199254740994⟩], []⟩ 1 1).1.status = 200 ∧
    (withdrawFunds reliable ⟨[⟨1, "a@x", some 9007199254740994⟩], []⟩ 1 1).2.transactions
      = [{ type := TxType.withdraw, amount := 1, sender := 1 }] ∧
    Ledger.balance ⟨[⟨1, "a@x", some 9007199254740994⟩], []⟩ 1 = 9007199254740994 ∧
    (withdrawFunds reliable ⟨[⟨1, "a@x", some 9007199254740994⟩], []⟩ 1 1).2.balance 1
      = 9007199254740992 ∧
    (withdrawFunds reliable ⟨[⟨1, "a@x", some 9007199254740994⟩], []⟩ 1 1).2.balance 1
      ≠ Ledger.balance ⟨[⟨1, "a@x", some 9007199254740994⟩], []⟩ 1 - 1 := by
  decide

/-- C2 as amended: for every actor that resolves to a stored account and every
amount greater than zero, `withdrawFunds` answers 200 exactly when the amount
is at most the actor's balance (zero when absent); then the balance becomes
the double nearest to the balance minus the amount, which is that difference
itself whenever the balance is at most 2 ^ 53, every other account is left as
it was and exactly one `withdraw` record with the actor as sender is appended;
otherwise the answer is `400 Insufficient balance.` and the ledger, balances
and transactions, is unchanged. -/
theorem withdrawFunds_withdraws (s : Ledger) (actor : Nat) (amount : Int) (u : User)
    (hu : findById s.users actor = some u) (hpos : 0 < amount) :
    ((withdrawFunds reliable s actor amount).1.status = 200 ↔ amount ≤ s.balance actor) ∧
    (amount ≤ s.balance actor →
      (withdrawFunds reliable s actor amount).2.balance actor
        = toDouble (s.balance actor - amount) ∧
      (s.balance actor ≤ 9007199254740992 →
        (withdrawFunds reliable s actor amount).2.balance actor = s.balance actor - amount) ∧
      (∀ id, id ≠ actor →
        findById (withdrawFunds reliable s actor amount).2.users id = findById s.users id) ∧
      (withdrawFunds reliable s actor amount).2.transactions =
        s.transactions ++ [{ type := TxType.withdraw, amount := amount, sender := actor }]) ∧
    (s.balance actor < amount →
      withdrawFunds reliable s actor amount =
        (⟨400, Body.error "Insufficient balance."⟩, s)) := by
  have hid := findById_id hu
  have hnot : ¬ amount ≤ 0 := not_le.mpr hpos
  rw [balance_of_find hu]
  by_cases hlt : orZero u.balance < amount
  · have hnle : ¬ amount ≤ orZero u.balance := not_le.mpr hlt
    simp [withdrawFunds, reliable, hnot, hu, hlt, hnle]
  · have hle : amount ≤ orZero u.balance := not_lt.mp hlt
    simp only [withdrawFunds, reliable, hnot, hu, hlt, if_false, Bool.false_eq_true]
    have hbal := save_actor_balance s.users actor u (toDouble (orZero u.balance - amount))
      (s.transactions ++ [{ type := TxType.withdraw, amount := amount, sender := u._id }]) hu
    refine ⟨⟨fun _ => hle, fun _ => trivial⟩, fun _ => ⟨hbal, ?_, ?_, ?_⟩, fun h => h.elim⟩
    · intro hmax
      exact hbal.trans (toDouble_exact (orZero u.balance - amount) ⟨by omega, by omega⟩)
    · intro id hne
      exact save_actor_others s.users actor u _ hu id hne
    · simp [hid]

/-- C2 as amended, at a concrete ledger: account 1 holds 100; withdrawing 30
is served and leaves 70. -/
theorem withdrawFunds_withdraws_witness :
    ((withdrawFunds reliable ⟨[⟨1, "a@x", some 100⟩, ⟨2, "b@x", none⟩], []⟩ 1 30).1.status = 200
      ↔ (30 : Int) ≤ Ledger.balance ⟨[⟨1, "a@x", some 100⟩, ⟨2, "b@x", none⟩], []⟩ 1) ∧
    (withdrawFunds reliable ⟨[⟨1, "a@x", some 100⟩, ⟨2, "b@x", none⟩], []⟩ 1 30).2.balance 1
      = Ledger.balance ⟨[⟨1, "a@x", some 100⟩, ⟨2, "b@x", none⟩], []⟩ 1 - 30 :=
  ⟨(withdrawFunds_withdraws ⟨[⟨1, "a@x", some 100⟩, ⟨2, "b@x", none⟩], []⟩ 1 30
      ⟨1, "a@x", some 100⟩ (by decide) (by decide)).1,
    ((withdrawFunds_withdraws ⟨[⟨1, "a@x", some 100⟩, ⟨2, "b@x", none⟩], []⟩ 1 30
      ⟨1, "a@x", some 100⟩ (by decide) (by decide)).2.1 (by decide)).2.1 (by decide)⟩

/-- C3 fails beyond the exact range of JavaScript numbers: accounts 1 and 2
both hold 9007199254740992, which is 2 ^ 53, and account 1 sends 1 to account
2.  The handler answers 200 and debits the sender to 9007199254740991, but the
credited balance it saves is the nearest double, so the recipient stays at
9007199254740992 instead of gaining 1. -/
theorem transferFunds_rounds_credit :
    (transferFunds reliable ⟨[⟨1, "a@x", some 9007199254740992⟩,
      ⟨2, "b@x", some 9007199254740992⟩], []⟩ 1 "b@x" 1).1.status = 200 ∧
    (transferFunds reliable ⟨[⟨1, "a@x", some 9007199254740992⟩,
      ⟨2, "b@x", some 9007199254740992⟩], []⟩ 1 "b@x" 1).2.balance 1 = 9007199254740991 ∧
    Ledger.balance ⟨[⟨1, "a@x", some 9007199254740992⟩,
      ⟨2, "b@x", some 9007199254740992⟩], []⟩ 2 = 9007199254740992 ∧
    (transferFunds reliable ⟨[⟨1, "a@x", some 9007199254740992⟩,
      ⟨2, "b@x", some 9007199254740992⟩], []⟩ 1 "b@x" 1).2.balance 2 = 9007199254740992 ∧
    (transferFunds reliable ⟨[⟨1, "a@x", some 9007199254740992⟩,
      ⟨2, "b@x", some 9007199254740992⟩], []⟩ 1 "b@x" 1).2.balance 2
      ≠ Ledger.balance ⟨[⟨1, "a@x", some 9007199254740992⟩,
        ⟨2, "b@x", some 9007199254740992⟩], []⟩ 2 + 1 := by
  decide

/-- C3 as amended: a transfer of an amount greater than zero from a resolved
actor to a recipient email that resolves to a different stored account, the
amount being at most the actor's balance, answers 200; the actor's balance
becomes the double nearest to its balance minus the amount, which is that
difference itself whenever the balance is at most 2 ^ 53; the recipient's
balance becomes the double nearest to its balance (zero when absent) plus the
amount, which is that sum itself whenever the sum is at most 2 ^ 53 in
absolute value; every other account is left as it was, and exactly one
`transfer` record with the actor as sender and the recipient as receiver is
appended. -/
theorem transferFunds_transfers (s : Ledger) (actor : Nat) (recipientEmail : String)
    (amount : Int) (a b : User) (hwf : s.WF)
    (ha : findById s.users actor = some a) (hb : findOne s.users recipientEmail = some b)
    (hne : b._id ≠ actor) (hpos : 0 < amount) (hle : amount ≤ s.balance actor) :
    (transferFunds reliable s actor recipientEmail amount).1.status = 200 ∧
    (transferFunds reliable s actor recipientEmail amount).2.balance actor
      = toDouble (s.balance actor - amount) ∧
    (s.balance actor ≤ 9007199254740992 →
      (transferFunds reliable s actor recipientEmail amount).2.balance actor
        = s.balance actor - amount) ∧
    (transferFunds reliable s actor recipientEmail amount).2.balance b._id
      = toDouble (s.balance b._id + amount) ∧
    (Exact (s.balance b._id + amount) →
      (transferFunds reliable s actor recipientEmail amount).2.balance b._id
        = s.balance b._id + amount) ∧
    (∀ id, id ≠ actor → id ≠ b._id →
      findById (transferFunds reliable s actor recipientEmail amount).2.users id
        = findById s.users id) ∧
    (transferFunds reliable s actor recipientEmail amount).2.transactions =
      s.transactions ++
        [{ type := TxType.transfer, amount := amount, sender := actor, receiver := some b._id }] := by
  have hid := findById_id ha
  have hnot : ¬ amount ≤ 0 := not_le.mpr hpos
  have hb2 : findById s.users b._id = some b := findById_of_mem hwf (findOne_mem hb)
  rw [balance_of_find ha] at hle ⊢
  rw [balance_of_find hb2]
  have hlt : ¬ orZero a.balance < amount := not_lt.mpr hle
  simp only [transferFunds, reliable, hnot, ha, hb, hlt, if_false, Bool.false_eq_true]
  have hr1 : findById (save s.users { a with balance := some (toDouble (orZero a.balance - amount)) })
      b._id = some b := by
    rw [save_actor_others s.users actor a _ ha b._id hne]
    exact hb2
  have hsender : ∀ log : List Transaction, Ledger.balance
      ⟨save (save s.users { a with balance := some (toDouble (orZero a.balance - amount)) })
        { b with balance := some (toDouble (orZero b.balance + amount)) }, log⟩ actor
        = toDouble (orZero a.balance - amount) := by
    intro log
    rw [balance_save_other _ { b with balance := some (toDouble (orZero b.balance + amount)) }
      actor (fun e => hne e.symm) _ s.transactions]
    exact save_actor_balance s.users actor a _ s.transactions ha
  have hreceiver : ∀ log : List Transaction, Ledger.balance
      ⟨save (save s.users { a with balance := some (toDouble (orZero a.balance - amount)) })
        { b with balance := some (toDouble (orZero b.balance + amount)) }, log⟩ b._id
        = toDouble (orZero b.balance + amount) :=
    fun log => balance_save_same _
      { b with balance := some (toDouble (orZero b.balance + amount)) } b _ hr1 rfl log
  refine ⟨trivial, hsender _, ?_, hreceiver _, ?_, ?_, ?_⟩
  · intro hmax
    exact (hsender _).trans
      (toDouble_exact (orZero a.balance - amount) ⟨by omega, by omega⟩)
  · intro hex
    exact (hreceiver _).trans (toDouble_exact _ hex)
  · intro id h1 h2
    have h := findById_save_other
      (save s.users { a with balance := some (toDouble (orZero a.balance - amount)) })
      { b with balance := some (toDouble (orZero b.balance + amount)) } id h2
    have h3 := save_actor_others s.users actor a (toDouble (orZero a.balance - amount)) ha id h1
    simp only [h, h3]
  · simp [hid]

/-- C3 as amended, at the ledger of the test suite: account 1 holds 200 and
sends 50 to account 2, whose balance is absent. -/
theorem transferFunds_transfers_witness :
    (transferFunds reliable ⟨[⟨1, "test1@example.com", some 200⟩,
        ⟨2, "test2@example.com", none⟩], []⟩ 1 "test2@example.com" 50).2.balance 1
      = Ledger.balance ⟨[⟨1, "test1@example.com", some 200⟩,
        ⟨2, "test2@example.com", none⟩], []⟩ 1 - 50 ∧
    (transferFunds reliable ⟨[⟨1, "test1@example.com", some 200⟩,
        ⟨2, "test2@example.com", none⟩], []⟩ 1 "test2@example.com" 50).2.balance 2
      = Ledger.balance ⟨[⟨1, "test1@example.com", some 200⟩,
        ⟨2, "test2@example.com", none⟩], []⟩ 2 + 50 :=
  ⟨(transferFunds_transfers ⟨[⟨1, "test1@example.com", some 200⟩,
      ⟨2, "test2@example.com", none⟩], []⟩ 1 "test2@example.com" 50
    ⟨1, "test1@example.com", some 200⟩ ⟨2, "test2@example.com", none⟩
    (by decide) (by decide) (by decide) (by decide) (by decide) (by decide)).2.2.1 (by decide),
   (transferFunds_transfers ⟨[⟨1, "test1@example.com", some 200⟩,
      ⟨2, "test2@example.com", none⟩], []⟩ 1 "test2@example.com" 50
    ⟨1, "test1@example.com", some 200⟩ ⟨2, "test2@example.com", none⟩
    (by decide) (by decide) (by decide) (by decide) (by decide) (by decide)).2.2.2.2.1
      (by decide)⟩

/-- C5: a transfer of an amount greater than zero in which actor and recipient
both resolve and the actor's balance (zero when absent) is less than the amount
answers `400 Insufficient balance.` and leaves the whole ledger as it was: both
balances are unchanged and no record is appended. -/
theorem transferFunds_insufficient (fail : Faults) (s : Ledger) (actor : Nat)
    (recipientEmail : String) (amount : Int) (a b : User)
    (h0 : fail 0 = false) (h1 : fail 1 = false)
    (ha : findById s.users actor = some a) (hb : findOne s.users recipientEmail = some b)
    (hpos : 0 < amount) (hlt : s.balance actor < amount) :
    transferFunds fail s actor recipientEmail amount =
      (⟨400, Body.error "Insufficient balance."⟩, s) := by
  have hnot : ¬ amount ≤ 0 := not_le.mpr hpos
  rw [balance_of_find ha] at hlt
  simp [transferFunds, h0, h1, hnot, ha, hb, hlt]

/-- C5 at the ledger of the test suite: account 1 holds nothing and tries to
send 100 to account 2. -/
theorem transferFunds_insufficient_witness :
    transferFunds reliable ⟨[⟨1, "test1@example.com", none⟩,
        ⟨2, "test2@example.com", none⟩], []⟩ 1 "test2@example.com" 100 =
      (⟨400, Body.error "Insufficient balance."⟩,
        ⟨[⟨1, "test1@example.com", none⟩, ⟨2, "test2@example.com", none⟩], []⟩) :=
  transferFunds_insufficient reliable ⟨[⟨1, "test1@example.com", none⟩,
      ⟨2, "test2@example.com", none⟩], []⟩ 1 "test2@example.com" 100
    ⟨1, "test1@example.com", none⟩ ⟨2, "test2@example.com", none⟩
    rfl rfl (by decide) (by decide) (by decide) (by decide)

/-- C6: each of `fundAccount`, `withdrawFunds` and `transferFunds` answers a
request whose amount is zero or negative with `400 Amount must be positive.`
and leaves the whole ledger, every balance and the transactions, as it was. -/
theorem nonpositive_amount_rejected (fail : Faults) (s : Ledger) (actor : Nat)
    (recipientEmail : String) (amount : Int) (h : amount ≤ 0) :
    fundAccount fail s actor amount = (⟨400, Body.error "Amount must be positive."⟩, s) ∧
    withdrawFunds fail s actor amount = (⟨400, Body.error "Amount must be positive."⟩, s) ∧
    transferFunds fail s actor recipientEmail amount =
      (⟨400, Body.error "Amount must be positive."⟩, s) := by
  simp [fundAccount, withdrawFunds, transferFunds, h]

/-- C6 at a concrete request: funding with the amount -5. -/
theorem nonpositive_amount_rejected_witness :
    fundAccount reliable ⟨[⟨1, "a@x", some 100⟩], []⟩ 1 (-5) =
      (⟨400, Body.error "Amount must be positive."⟩, ⟨[⟨1, "a@x", some 100⟩], []⟩) :=
  (nonpositive_amount_rejected reliable ⟨[⟨1, "a@x", some 100⟩], []⟩ 1 "a@x" (-5)
    (by decide)).1

/-! ## Invariants of request sequences -/

/-- C7: from a ledger in which every balance is at least zero, after any finite
sequence of `fundAccount`, `withdrawFunds` and `transferFunds` requests served
one after another, with arbitrary actors, recipients, amounts and store
failures, every balance is still at least zero. -/
theorem balance_never_negative (s : Ledger) (reqs : List Request)
    (h : ∀ u ∈ s.users, 0 ≤ orZero u.balance) :
    ∀ u ∈ (run s reqs).users, 0 ≤ orZero u.balance := by
  induction reqs generalizing s with
  | nil => exact h
  | cons q qs ih => exact ih (handle s q).2 (handle_nonNeg s q h)

/-- C7 on a concrete sequence: an overdrawing withdrawal, a transfer, a
negative funding and a withdrawal of the whole balance. -/
theorem balance_never_negative_witness :
    ((run ⟨[⟨1, "a@x", some 100⟩, ⟨2, "b@x", none⟩], []⟩
      [Request.withdraw reliable 1 500, Request.transfer reliable 1 "b@x" 70,
        Request.fund reliable 2 (-5), Request.withdraw reliable 2 70]).users.all
      fun u => decide (0 ≤ orZero u.balance)) = true :=
  List.all_eq_true.mpr fun u hu => decide_eq_true
    (balance_never_negative ⟨[⟨1, "a@x", some 100⟩, ⟨2, "b@x", none⟩], []⟩
      [Request.withdraw reliable 1 500, Request.transfer reliable 1 "b@x" 70,
        Request.fund reliable 2 (-5), Request.withdraw reliable 2 70] (by decide) u hu)

/-- C10: the amount of every transaction record is greater than zero: from
transactions in which every record has an amount greater than zero (the empty
collection in particular), after any finite sequence of `fundAccount`,
`withdrawFunds` and `transferFunds` requests with arbitrary amounts and store
failures every record has an amount greater than zero; and a request adds
either nothing or one record whose type is that of the handler that served it
and whose amount is the requested one. -/
theorem transaction_amounts_positive (s : Ledger) (reqs : List Request)
    (h : ∀ t ∈ s.transactions, 0 < t.amount) :
    (∀ t ∈ (run s reqs).transactions, 0 < t.amount) ∧
    (∀ (s1 : Ledger) (q : Request),
      (handle s1 q).2.transactions = s1.transactions ∨
      ∃ t : Transaction, (handle s1 q).2.transactions = s1.transactions ++ [t] ∧
        t.type = q.kind ∧ t.amount = q.amount ∧ 0 < q.amount) := by
  refine ⟨?_, handle_log⟩
  induction reqs generalizing s with
  | nil => exact h
  | cons q qs ih => exact ih (handle s q).2 (handle_log_pos s q h)

/-- C10 on a concrete sequence started with no transactions: a funding, a
funding of zero, a transfer and a withdrawal. -/
theorem transaction_amounts_positive_witness :
    ((run ⟨[⟨1, "a@x", none⟩, ⟨2, "b@x", none⟩], []⟩
      [Request.fund reliable 1 200, Request.fund reliable 1 0,
        Request.transfer reliable 1 "b@x" 50, Request.withdraw reliable 2 20]).transactions.all
      fun t => decide (0 < t.amount)) = true :=
  List.all_eq_true.mpr fun t ht => decide_eq_true
    ((transaction_amounts_positive ⟨[⟨1, "a@x", none⟩, ⟨2, "b@x", none⟩], []⟩
      [Request.fund reliable 1 200, Request.fund reliable 1 0,
        Request.transfer reliable 1 "b@x" 50, Request.withdraw reliable 2 20]
      (by decide)).1 t ht)

/-! ## Self-transfer -/

/-- C4 fails on a self-transfer: account 1 holds 100 and sends 50 to its own
email.  The handler loads the account twice, saves the debited copy and then
the credited copy, answers 200 and leaves the balance, and with it the sum of
all balances, at 150. -/
theorem transferFunds_self_transfer_credits :
    (transferFunds reliable ⟨[⟨1, "a@x", some 100⟩, ⟨2, "b@x", some 7⟩], []⟩ 1 "a@x" 50).1.status
      = 200 ∧
    Ledger.total ⟨[⟨1, "a@x", some 100⟩, ⟨2, "b@x", some 7⟩], []⟩ = 107 ∧
    (transferFunds reliable ⟨[⟨1, "a@x", some 100⟩, ⟨2, "b@x", some 7⟩], []⟩ 1 "a@x" 50).2.total
      = 157 ∧
    Ledger.balance ⟨[⟨1, "a@x", some 100⟩, ⟨2, "b@x", some 7⟩], []⟩ 1 = 100 ∧
    (transferFunds reliable ⟨[⟨1, "a@x", some 100⟩, ⟨2, "b@x", some 7⟩], []⟩ 1 "a@x"
      50).2.balance 1 = 150 := by
  decide

/-! ## Store failures in the middle of a handler -/

/-- C8 fails: no handler undoes a balance save.  On the ledger where account 1
holds 100 and account 2 nothing, a funding of 50 whose `transaction.save`
rejects answers 500 and leaves account 1 at 150 with no record; a transfer of
50 to account 2 whose `receiver.save` rejects answers 500 and leaves account 1
debited to 50 while account 2 still reads 0. -/
theorem midway_failure_not_rolled_back :
    (fundAccount (failAt 2) ⟨[⟨1, "a@x", some 100⟩, ⟨2, "b@x", none⟩], []⟩ 1 50).1.status = 500 ∧
    (fundAccount (failAt 2) ⟨[⟨1, "a@x", some 100⟩, ⟨2, "b@x", none⟩], []⟩ 1 50).2
      ≠ ⟨[⟨1, "a@x", some 100⟩, ⟨2, "b@x", none⟩], []⟩ ∧
    (fundAccount (failAt 2) ⟨[⟨1, "a@x", some 100⟩, ⟨2, "b@x", none⟩], []⟩ 1 50).2
      = ⟨[⟨1, "a@x", some 150⟩, ⟨2, "b@x", none⟩], []⟩ ∧
    (transferFunds (failAt 3) ⟨[⟨1, "a@x", some 100⟩, ⟨2, "b@x", none⟩], []⟩ 1 "b@x" 50).1.status
      = 500 ∧
    (transferFunds (failAt 3) ⟨[⟨1, "a@x", some 100⟩, ⟨2, "b@x", none⟩], []⟩ 1 "b@x" 50).2
      = ⟨[⟨1, "a@x", some 50⟩, ⟨2, "b@x", none⟩], []⟩ := by
  decide

/-- C8 as amended: when a store write is the first call of a handler to
reject, the handler answers 500 and appends no record, and the balance saves
made before it stay in place, every account not saved staying as it was.  A
rejected `transaction.save` leaves the actor's balance at the double nearest
to balance plus amount in `fundAccount` and, when the amount is at most the
balance, at the double nearest to balance minus amount in `withdrawFunds`.  In
`transferFunds` with a resolved recipient and an amount at most the actor's
balance, a rejected `receiver.save` leaves the actor's balance at the double
nearest to balance minus amount and nothing else changed, and a rejected
`transaction.save` leaves the recipient's account at the double nearest to
the balance of the recipient document plus amount and, when the recipient is
another account, the actor's balance at the double nearest to balance minus
amount. -/
theorem midway_failure_keeps_saves (f g h : Faults) (s : Ledger) (actor : Nat)
    (recipientEmail : String) (amount : Int) (a : User)
    (ha : findById s.users actor = some a) (hpos : 0 < amount)
    (hf : FirstFailure f 2) (hg : FirstFailure g 3) (hh : FirstFailure h 4) :
    ((fundAccount f s actor amount).1.status = 500 ∧
      (fundAccount f s actor amount).2.transactions = s.transactions ∧
      (fundAccount f s actor amount).2.balance actor
        = toDouble (s.balance actor + amount) ∧
      (∀ id, id ≠ actor →
        findById (fundAccount f s actor amount).2.users id = findById s.users id)) ∧
    (amount ≤ s.balance actor →
      (withdrawFunds f s actor amount).1.status = 500 ∧
      (withdrawFunds f s actor amount).2.transactions = s.transactions ∧
      (withdrawFunds f s actor amount).2.balance actor
        = toDouble (s.balance actor - amount) ∧
      (∀ id, id ≠ actor →
        findById (withdrawFunds f s actor amount).2.users id = findById s.users id)) ∧
    (∀ b : User, findOne s.users recipientEmail = some b → amount ≤ s.balance actor →
      ((transferFunds g s actor recipientEmail amount).1.status = 500 ∧
        (transferFunds g s actor recipientEmail amount).2.transactions = s.transactions ∧
        (transferFunds g s actor recipientEmail amount).2.balance actor
          = toDouble (s.balance actor - amount) ∧
        (∀ id, id ≠ actor →
          findById (transferFunds g s actor recipientEmail amount).2.users id
            = findById s.users id)) ∧
      ((transferFunds h s actor recipientEmail amount).1.status = 500 ∧
        (transferFunds h s actor recipientEmail amount).2.transactions = s.transactions ∧
        (transferFunds h s actor recipientEmail amount).2.balance b._id
          = toDouble (orZero b.balance + amount) ∧
        (b._id ≠ actor →
          (transferFunds h s actor recipientEmail amount).2.balance actor
            = toDouble (s.balance actor - amount)) ∧
        (∀ id, id ≠ actor → id ≠ b._id →
          findById (transferFunds h s actor recipientEmail amount).2.users id
            = findById s.users id))) := by
  have hnot : ¬ amount ≤ 0 := not_le.mpr hpos
  rw [balance_of_find ha]
  have f0 := firstFailure_before hf (by decide : 0 < 2)
  have f1 := firstFailure_before hf (by decide : 1 < 2)
  have f2 := hf.2
  have g0 := firstFailure_before hg (by decide : 0 < 3)
  have g1 := firstFailure_before hg (by decide : 1 < 3)
  have g2 := firstFailure_before hg (by decide : 2 < 3)
  have g3 := hg.2
  have h0 := firstFailure_before hh (by decide : 0 < 4)
  have h1 := firstFailure_before hh (by decide : 1 < 4)
  have h2 := firstFailure_before hh (by decide : 2 < 4)
  have h3 := firstFailure_before hh (by decide : 3 < 4)
  have h4 := hh.2
  refine ⟨?_, ?_, ?_⟩
  · simp only [fundAccount, hnot, ha, f0, f1, f2, if_false, if_true, Bool.false_eq_true]
    exact ⟨trivial, trivial, save_actor_balance s.users actor a _ _ ha,
      fun id hne => save_actor_others s.users actor a _ ha id hne⟩
  · intro hle
    have hlt : ¬ orZero a.balance < amount := not_lt.mpr hle
    simp only [withdrawFunds, hnot, ha, hlt, f0, f1, f2, if_false, if_true,
      Bool.false_eq_true]
    exact ⟨trivial, trivial, save_actor_balance s.users actor a _ _ ha,
      fun id hne => save_actor_others s.users actor a _ ha id hne⟩
  · intro b hb hle
    have hlt : ¬ orZero a.balance < amount := not_lt.mpr hle
    refine ⟨?_, ?_⟩
    · simp only [transferFunds, hnot, ha, hb, hlt, g0, g1, g2, g3, if_false, if_true,
        Bool.false_eq_true]
      exact ⟨trivial, trivial, save_actor_balance s.users actor a _ _ ha,
        fun id hne => save_actor_others s.users actor a _ ha id hne⟩
    · simp only [transferFunds, hnot, ha, hb, hlt, h0, h1, h2, h3, h4, if_false, if_true,
        Bool.false_eq_true]
      refine ⟨trivial, trivial, ?_, ?_, ?_⟩
      · obtain ⟨v, hv⟩ := exists_findById_save s.users
          { a with balance := some (toDouble (orZero a.balance - amount)) } b._id
          (exists_findById_of_mem (findOne_mem hb))
        exact balance_save_same _
          { b with balance := some (toDouble (orZero b.balance + amount)) } v _ hv rfl _
      · intro hne
        rw [balance_save_other _
          { b with balance := some (toDouble (orZero b.balance + amount)) } actor
          (fun e => hne e.symm) _ s.transactions]
        exact save_actor_balance s.users actor a _ s.transactions ha
      · intro id hid1 hid2
        have e1 := findById_save_other
          (save s.users { a with balance := some (toDouble (orZero a.balance - amount)) })
          { b with balance := some (toDouble (orZero b.balance + amount)) } id hid2
        have e2 := save_actor_others s.users actor a
          (toDouble (orZero a.balance - amount)) ha id hid1
        simp only [e1, e2]

/-- C8 as amended, at a concrete ledger: account 1 holds 100, account 2
nothing, the amount is 50 and the recipient's save is rejected. -/
theorem midway_failure_keeps_saves_witness :
    (transferFunds (failAt 3) ⟨[⟨1, "a@x", some 100⟩, ⟨2, "b@x", none⟩], []⟩ 1 "b@x"
        50).1.status = 500 ∧
    (transferFunds (failAt 3) ⟨[⟨1, "a@x", some 100⟩, ⟨2, "b@x", none⟩], []⟩ 1 "b@x"
        50).2.transactions = [] ∧
    (transferFunds (failAt 3) ⟨[⟨1, "a@x", some 100⟩, ⟨2, "b@x", none⟩], []⟩ 1 "b@x"
        50).2.balance 1
      = toDouble (Ledger.balance ⟨[⟨1, "a@x", some 100⟩, ⟨2, "b@x", none⟩], []⟩ 1 - 50) ∧
    (∀ id, id ≠ 1 →
      findById (transferFunds (failAt 3) ⟨[⟨1, "a@x", some 100⟩, ⟨2, "b@x", none⟩], []⟩ 1
        "b@x" 50).2.users id
        = findById [(⟨1, "a@x", some 100⟩ : User), ⟨2, "b@x", none⟩] id) :=
  ((midway_failure_keeps_saves (failAt 2) (failAt 3) (failAt 4)
    ⟨[⟨1, "a@x", some 100⟩, ⟨2, "b@x", none⟩], []⟩ 1 "b@x" 50
    ⟨1, "a@x", some 100⟩ (by decide) (by decide)
    (by decide) (by decide) (by decide)).2.2 ⟨2, "b@x", none⟩ (by decide) (by decide)).1

/-! ## Withdrawals that overlap -/

/-- C9 fails: account 1 holds 100 and two `withdrawFunds` calls of 60 overlap,
each reading the balance before the other has saved.  Both calls answer 200
although only one withdrawal of 60 fits into 100, two records are appended and
the stored balance is 40, not 100 minus the 120 paid out. -/
theorem interleaved_withdrawals_both_succeed :
    (interleave 1 60 [0, 1, 0, 1, 0, 1]
      (⟨[⟨1, "a@x", some 100⟩], []⟩, [Call.start, Call.start])).2.countP Call.succeeded = 2 ∧
    (interleave 1 60 [0, 1, 0, 1, 0, 1]
      (⟨[⟨1, "a@x", some 100⟩], []⟩, [Call.start, Call.start])).2.countP Call.insufficient = 0 ∧
    ((100 : Int) / 60).toNat = 1 ∧
    (interleave 1 60 [0, 1, 0, 1, 0, 1]
      (⟨[⟨1, "a@x", some 100⟩], []⟩, [Call.start, Call.start])).1.balance 1 = 40 ∧
    (interleave 1 60 [0, 1, 0, 1, 0, 1]
      (⟨[⟨1, "a@x", some 100⟩], []⟩, [Call.start, Call.start])).1.transactions.length = 2 := by
  decide

/-- C9 as amended: when `N` `withdrawFunds` calls for the same amount greater
than zero against one account with balance `B`, at least zero and at most
2 ^ 53, are served one after another, exactly `min N (B / amount)` of them
answer 200, every other one answers `400 Insufficient balance.`, and the final
balance is `B` minus the amount times the number of successes, which is at
least zero. -/
theorem serial_withdrawals_never_overdraw (s : Ledger) (actor : Nat) (amount : Int)
    (N : Nat) (u : User) (hu : findById s.users actor = some u)
    (hB : 0 ≤ s.balance actor) (hmax : s.balance actor ≤ 9007199254740992)
    (hpos : 0 < amount) :
    (responses s (List.replicate N (Request.withdraw reliable actor amount))).countP
        (fun r => r.status == 200) = min N (s.balance actor / amount).toNat ∧
    (∀ r ∈ responses s (List.replicate N (Request.withdraw reliable actor amount)),
      r.status = 200 ∨ r = ⟨400, Body.error "Insufficient balance."⟩) ∧
    (run s (List.replicate N (Request.withdraw reliable actor amount))).balance actor
      = s.balance actor - amount * (min N (s.balance actor / amount).toNat : Nat) ∧
    0 ≤ (run s (List.replicate N (Request.withdraw reliable actor amount))).balance actor := by
  rw [balance_of_find hu] at hB hmax ⊢
  exact serial_withdrawals actor amount hpos N s u hu hB hmax

/-- C9 as amended, at a concrete ledger: three withdrawals of 40 from a
balance of 100. -/
theorem serial_withdrawals_never_overdraw_witness :
    (responses ⟨[⟨1, "a@x", some 100⟩], []⟩
        (List.replicate 3 (Request.withdraw reliable 1 40))).countP
        (fun r => r.status == 200)
      = min 3 (Ledger.balance ⟨[⟨1, "a@x", some 100⟩], []⟩ 1 / 40).toNat :=
  (serial_withdrawals_never_overdraw ⟨[⟨1, "a@x", some 100⟩], []⟩ 1 40 3
    ⟨1, "a@x", some 100⟩ (by decide) (by decide) (by decide) (by decide)).1

end BankingApi
